import Mathlib

/-!
Shallow embedding of the cafe resource adapter of this repository.

The repository holds two drafts of the same resource file:
* `ProviderA` embeds the draft that stores the identifier as a string,
  reads by identifier and checks for a missing remote entity;
* `ProviderB` embeds the draft that stores the identifier as a 64-bit
  integer, sends an empty creation request, reads the whole remote list
  and follows a successful update with a read-by-identifier.

Remote client calls are modelled as explicit function parameters
returning `Except`; every lifecycle handler returns the diagnostics it
appended together with the state it persisted (if any).
-/

namespace CafeProvider

/-- The remote client's entity type (hashicups.Cafe): an integer identifier
plus four free-form text attributes. -/
structure Cafe where
  ID : Int
  Name : String
  Address : String
  Description : String
  Image : String
deriving DecidableEq, Repr

/-- A diagnostic: a short title classifying the failure and a detail string
carrying the underlying error text. -/
structure Diag where
  title : String
  detail : String
deriving DecidableEq, Repr

/-- The outcome of one lifecycle call: the diagnostics appended to the
response and the state persisted by the final state-set (none when the
handler returned before setting state). -/
structure OpResponse (σ : Type) where
  diags : List Diag
  state : Option σ
deriving DecidableEq, Repr

/-- Decimal digit `d` (for `d < 10`) as a character: the digits written by
the model of strconv.Itoa. -/
def digitChar (d : Nat) : Char :=
  Char.ofNat (48 + d)

/-- Decimal digits of `n`, least significant first; structural on a fuel
argument so that it reduces in the kernel. -/
def toDigitsRevAux : Nat → Nat → List Nat
  | _, 0 => []
  | 0, _ + 1 => []
  | fuel + 1, n + 1 => ((n + 1) % 10) :: toDigitsRevAux fuel ((n + 1) / 10)

/-- Decimal digits of `n`, least significant first. -/
def toDigitsRev (n : Nat) : List Nat :=
  toDigitsRevAux n n

/-- Value of a least-significant-first digit list. -/
def valRev : List Nat → Nat
  | [] => 0
  | d :: ds => d + 10 * valRev ds

/-- Decimal digit characters of a natural number, most significant first. -/
def natChars (n : Nat) : List Char :=
  if n = 0 then ['0'] else ((toDigitsRev n).map digitChar).reverse

/-- Model of strconv.Itoa; the Go int is modelled as an unbounded integer. -/
def itoa (n : Int) : String :=
  if n < 0 then String.mk ('-' :: natChars n.natAbs) else String.mk (natChars n.toNat)

/-- Numeric value of a decimal digit character, none for a non-digit. -/
def digitVal? (c : Char) : Option Nat :=
  if 48 ≤ c.toNat ∧ c.toNat ≤ 57 then some (c.toNat - 48) else none

/-- Left-to-right accumulation of decimal digits, none at the first
non-digit character. -/
def parseNatAux : List Char → Nat → Option Nat
  | [], acc => some acc
  | c :: cs, acc =>
    match digitVal? c with
    | none => none
    | some d => parseNatAux cs (10 * acc + d)

/-- Parse a non-empty all-digit character list. -/
def parseNat? (l : List Char) : Option Nat :=
  if l.isEmpty then none else parseNatAux l 0

/-- Model of strconv.Atoi: optional sign followed by at least one decimal
digit (the Go range check is not modelled; identifiers are unbounded). -/
def atoi (s : String) : Option Int :=
  match s.data with
  | [] => none
  | c :: cs =>
    if c = '-' then (parseNat? cs).map (fun v => -(v : Int))
    else if c = '+' then (parseNat? cs).map (fun v => (v : Int))
    else (parseNat? (c :: cs)).map (fun v => (v : Int))

theorem parseNatAux_append (xs ys : List Char) (acc : Nat) :
    parseNatAux (xs ++ ys) acc =
      (parseNatAux xs acc).bind (fun a => parseNatAux ys a) := by
  induction xs generalizing acc with
  | nil => simp [parseNatAux]
  | cons c cs ih =>
    cases h : digitVal? c <;> simp [parseNatAux, h, ih]

theorem valRev_toDigitsRevAux (fuel : Nat) :
    ∀ n, n ≤ fuel → valRev (toDigitsRevAux fuel n) = n := by
  induction fuel with
  | zero =>
    intro n hn
    interval_cases n
    simp [toDigitsRevAux, valRev]
  | succ k ih =>
    intro n hn
    cases n with
    | zero => simp [toDigitsRevAux, valRev]
    | succ m =>
      have hlt : (m + 1) / 10 < m + 1 := Nat.div_lt_self (Nat.succ_pos m) (by norm_num)
      have hd : (m + 1) / 10 ≤ k := by omega
      simp [toDigitsRevAux, valRev, ih _ hd]
      omega

theorem toDigitsRevAux_lt (fuel : Nat) :
    ∀ n d, d ∈ toDigitsRevAux fuel n → d < 10 := by
  induction fuel with
  | zero =>
    intro n d hd
    cases n <;> simp [toDigitsRevAux] at hd
  | succ k ih =>
    intro n d hd
    cases n with
    | zero => simp [toDigitsRevAux] at hd
    | succ m =>
      simp only [toDigitsRevAux, List.mem_cons] at hd
      rcases hd with h | h
      · omega
      · exact ih _ _ h

theorem digitVal_digitChar {d : Nat} (hd : d < 10) :
    digitVal? (digitChar d) = some d := by
  interval_cases d <;> decide

theorem digitChar_ne_minus {d : Nat} (hd : d < 10) : digitChar d ≠ '-' := by
  interval_cases d <;> decide

theorem digitChar_ne_plus {d : Nat} (hd : d < 10) : digitChar d ≠ '+' := by
  interval_cases d <;> decide

theorem parseNatAux_digits (ds : List Nat) (acc : Nat) (h : ∀ d ∈ ds, d < 10) :
    parseNatAux ((ds.map digitChar).reverse) acc =
      some (acc * 10 ^ ds.length + valRev ds) := by
  induction ds generalizing acc with
  | nil => simp [parseNatAux, valRev]
  | cons d ds ih =>
    have hd : d < 10 := h d (by simp)
    have hds : ∀ x ∈ ds, x < 10 := fun x hx => h x (by simp [hx])
    simp only [List.map_cons, List.reverse_cons, parseNatAux_append, ih acc hds]
    simp [parseNatAux, digitVal_digitChar hd, valRev]
    ring

theorem valRev_toDigitsRev (n : Nat) : valRev (toDigitsRev n) = n :=
  valRev_toDigitsRevAux n n (le_refl n)

theorem toDigitsRev_ne_nil {n : Nat} (h : n ≠ 0) : toDigitsRev n ≠ [] := by
  cases n with
  | zero => exact absurd rfl h
  | succ m => simp [toDigitsRev, toDigitsRevAux]

theorem natChars_ne_nil (n : Nat) : natChars n ≠ [] := by
  unfold natChars
  split
  · simp
  · next h => simp [toDigitsRev_ne_nil h]

theorem parseNat_natChars (n : Nat) : parseNat? (natChars n) = some n := by
  by_cases h : n = 0
  · subst h; decide
  · obtain ⟨c, cs, hc⟩ := List.exists_cons_of_ne_nil (natChars_ne_nil n)
    have hmem : ∀ d ∈ toDigitsRev n, d < 10 := fun d hd => toDigitsRevAux_lt n n d hd
    have hparse : parseNatAux (natChars n) 0 = some n := by
      unfold natChars
      rw [if_neg h, parseNatAux_digits _ 0 hmem, valRev_toDigitsRev]
      simp
    rw [hc] at hparse ⊢
    simp [parseNat?, hparse]

theorem natChars_digits (n : Nat) : ∀ c ∈ natChars n, ∃ d, d < 10 ∧ c = digitChar d := by
  intro c hc
  unfold natChars at hc
  split at hc
  · simp at hc
    subst hc
    exact ⟨0, by norm_num, by decide⟩
  · next h =>
    simp only [List.mem_reverse, List.mem_map] at hc
    obtain ⟨d, hd, hdc⟩ := hc
    exact ⟨d, toDigitsRevAux_lt n n d hd, hdc.symm⟩

theorem atoi_itoa (n : Int) : atoi (itoa n) = some n := by
  unfold itoa
  split
  · next hn =>
    show atoi (String.mk ('-' :: natChars n.natAbs)) = some n
    simp [atoi, parseNat_natChars, abs_of_neg hn]
  · next hn =>
    obtain ⟨c, cs, hc⟩ := List.exists_cons_of_ne_nil (natChars_ne_nil n.toNat)
    obtain ⟨d, hd, hcd⟩ := natChars_digits n.toNat c (by rw [hc]; simp)
    show atoi (String.mk (natChars n.toNat)) = some n
    rw [hc]
    simp only [atoi]
    have h1 : ¬(c = '-') := by rw [hcd]; exact digitChar_ne_minus hd
    have h2 : ¬(c = '+') := by rw [hcd]; exact digitChar_ne_plus hd
    rw [if_neg h1, if_neg h2, ← hc]
    simp [parseNat_natChars]
    omega

theorem itoa_ne_empty (n : Int) : itoa n ≠ "" := by
  unfold itoa
  split
  · intro h
    have hdata := congrArg String.data h
    simp at hdata
  · intro h
    have hdata := congrArg String.data h
    simp at hdata
    exact natChars_ne_nil n.toNat hdata

namespace ProviderA

/-- The declarative model of the string-identifier draft (its
cafeResourceModel stores every attribute, the identifier included, as a
string; null and unknown attribute values are modelled by their string
value). -/
structure CafeModel where
  ID : String
  Name : String
  Address : String
  Description : String
  Image : String
deriving DecidableEq, Repr

/-- The creation request this draft's Create sends to CreateCafe: one
entity built from the plan's user-supplied attributes, the identifier left
at the Go zero value. -/
def createRequest (plan : CafeModel) : List Cafe :=
  [{ ID := 0, Name := plan.Name, Address := plan.Address,
     Description := plan.Description, Image := plan.Image }]

/-- Model of the Go error text of strconv.Atoi on an unparsable input. -/
def atoiErrText (s : String) : String :=
  "strconv.Atoi: parsing \"" ++ s ++ "\": invalid syntax"

/-- The conversion-error diagnostic this draft's Read and Update append
when the stored identifier fails to parse. -/
def convDiag (s : String) : Diag :=
  { title := "Error Converting Cafe ID",
    detail := "Could not convert cafe ID to integer: " ++ atoiErrText s }

/-- Create of the string-identifier draft. -/
def Create (plan : CafeModel) (createCafe : List Cafe → Except String Cafe) :
    OpResponse CafeModel :=
  match createCafe (createRequest plan) with
  | .error e =>
    { diags := [{ title := "Error creating cafe",
                  detail := "Could not create cafe, unexpected error: " ++ e }],
      state := none }
  | .ok c =>
    { diags := [],
      state := some { ID := itoa c.ID, Name := c.Name, Address := c.Address,
                      Description := c.Description, Image := c.Image } }

/-- The full overwrite of the state from one remote entity, as performed by
this draft's Read on success. -/
def fromCafe (c : Cafe) : CafeModel :=
  { ID := itoa c.ID, Address := c.Address, Image := c.Image,
    Name := c.Name, Description := c.Description }

/-- Read of the string-identifier draft: parse the stored identifier, query
by identifier, fail when the result list is empty, otherwise refresh the
whole state from the first returned entity. -/
def Read (state : CafeModel) (getCafe : String → Except String (List Cafe)) :
    OpResponse CafeModel :=
  match atoi state.ID with
  | none => { diags := [convDiag state.ID], state := none }
  | some cafeID =>
    match getCafe (itoa cafeID) with
    | .error e =>
      { diags := [{ title := "Unable to Read HashiCups Cafe", detail := e }],
        state := none }
    | .ok cafes =>
      match cafes with
      | [] =>
        { diags := [{ title := "Cafe Not Found",
                      detail := "No cafe found with the given ID" }],
          state := none }
      | cafe :: _ => { diags := [], state := some (fromCafe cafe) }

/-- Update of the string-identifier draft: parse the identifier, send the
full entity to the remote update call and persist the state directly from
the update response; no follow-up read is performed. -/
def Update (plan : CafeModel)
    (updateCafe : String → List Cafe → Except String Cafe) :
    OpResponse CafeModel :=
  match atoi plan.ID with
  | none => { diags := [convDiag plan.ID], state := none }
  | some cafeID =>
    match updateCafe plan.ID
        [{ ID := cafeID, Name := plan.Name, Address := plan.Address,
           Description := plan.Description, Image := plan.Image }] with
    | .error e =>
      { diags := [{ title := "Error Updating HashiCups Cafe",
                    detail := "Could not update cafe, unexpected error: " ++ e }],
        state := none }
    | .ok c =>
      { diags := [],
        state := some { ID := itoa c.ID, Name := c.Name, Address := c.Address,
                        Description := c.Description, Image := c.Image } }

end ProviderA

namespace ProviderB

/-- The declarative model of the integer-identifier draft (its
cafeResourceModel stores the identifier as a 64-bit integer). -/
structure CafeModel where
  ID : Int
  Name : String
  Address : String
  Description : String
  Image : String
deriving DecidableEq, Repr

/-- The list model this draft's Read builds (its cafeDataSourceModel). -/
structure CafeListModel where
  Cafe : List CafeModel
deriving DecidableEq, Repr

/-- The creation request this draft's Create sends: the nil slice named
items, never populated from the plan. -/
def createRequest (_plan : CafeModel) : List CafeProvider.Cafe :=
  []

/-- Create of the integer-identifier draft. -/
def Create (plan : CafeModel)
    (createCafe : List CafeProvider.Cafe → Except String CafeProvider.Cafe) :
    OpResponse CafeModel :=
  match createCafe (createRequest plan) with
  | .error e =>
    { diags := [{ title := "Error creating cafe",
                  detail := "Could not create cafe, unexpected error: " ++ e }],
      state := none }
  | .ok c =>
    { diags := [],
      state := some { ID := c.ID, Name := c.Name, Address := c.Address,
                      Description := c.Description, Image := c.Image } }

/-- Read of the integer-identifier draft: it never reads the current state
and lists every remote cafe with GetCafes, persisting the whole list. -/
def Read (getCafes : Except String (List CafeProvider.Cafe)) :
    OpResponse CafeListModel :=
  match getCafes with
  | .error e =>
    { diags := [{ title := "Unable to Read HashiCups Cafes", detail := e }],
      state := none }
  | .ok cafes =>
    { diags := [],
      state := some { Cafe := cafes.map (fun c =>
        { ID := c.ID, Name := c.Name, Address := c.Address,
          Description := c.Description, Image := c.Image }) } }

/-- Update of the integer-identifier draft: remote update with an empty
request body whose response is discarded, then a read-by-identifier whose
result populates the persisted attributes (the identifier keeps the plan's
value). -/
def Update (plan : CafeModel)
    (updateCafe : String → List CafeProvider.Cafe → Except String CafeProvider.Cafe)
    (getCafe : String → Except String CafeProvider.Cafe) :
    OpResponse CafeModel :=
  match updateCafe (itoa plan.ID) [] with
  | .error e =>
    { diags := [{ title := "Error Updating HashiCups Cafe",
                  detail := "Could not update cafe, unexpected error: " ++ e }],
      state := none }
  | .ok _ =>
    match getCafe (itoa plan.ID) with
    | .error e =>
      { diags := [{ title := "Error Reading HashiCups Cafe",
                    detail := "Could not read HashiCups ocaferder ID " ++ itoa plan.ID
                      ++ ": " ++ e }],
        state := none }
    | .ok cafe =>
      { diags := [],
        state := some { plan with Name := cafe.Name, Address := cafe.Address,
                                  Description := cafe.Description, Image := cafe.Image } }

end ProviderB

/-- An opaque remote client handle, standing for *hashicups.Client. -/
structure HClient where
  handle : Nat
deriving DecidableEq, Repr

/-- The provider data handed to Configure: nil, a client handle of the
expected type, or a value of some other type, identified by the type name
the %T verb would print for it. -/
inductive ProviderData where
  | nil
  | client (c : HClient)
  | other (typeName : String)
deriving DecidableEq, Repr

/-- The diagnostic Configure emits for a wrong-typed provider data value. -/
def configureDiag (actual : String) : Diag :=
  { title := "Unexpected Data Source Configure Type",
    detail := "Expected *hashicups.Client, got: " ++ actual ++
      ". Please report this issue to the provider developers." }

/-- Configure, identical in both drafts: on nil provider data return at
once; on a wrong-typed value append one diagnostic and leave the stored
handle alone; on a client handle store it. Returns the handle after the
call together with the diagnostics appended. -/
def Configure (current : Option HClient) (d : ProviderData) :
    Option HClient × List Diag :=
  match d with
  | .nil => (current, [])
  | .client c => (some c, [])
  | .other t => (current, [configureDiag t])

/-- The plan of the spec's Create scenario, in the string-identifier
draft's model; the computed identifier is not yet assigned. -/
def samplePlanA : ProviderA.CafeModel :=
  { ID := "", Name := "Sample Cafe", Address := "123 Coffee St",
    Description := "A cozy place", Image := "http://example.com/image.jpg" }

/-- The plan of the spec's Create scenario, in the integer-identifier
draft's model. -/
def samplePlanB : ProviderB.CafeModel :=
  { ID := 0, Name := "Sample Cafe", Address := "123 Coffee St",
    Description := "A cozy place", Image := "http://example.com/image.jpg" }

/-- A remote client stub that assigns identifier 42 and echoes every
submitted field of a single-entity creation request. -/
def echoStub42 : List Cafe → Except String Cafe
  | [c] => .ok { c with ID := 42 }
  | _ => .error "unexpected request"

/-- A stored state whose identifier is 42 and whose attributes hold stale
text, to be overwritten by a refresh. -/
def stateFortyTwo : ProviderA.CafeModel :=
  { ID := "42", Name := "old name", Address := "old address",
    Description := "old description", Image := "old image" }

/-- A stored state whose identifier is not a decimal integer. -/
def stateAbc : ProviderA.CafeModel :=
  { ID := "abc", Name := "old name", Address := "old address",
    Description := "old description", Image := "old image" }

/-- The remote entity with identifier 42. -/
def cafe42 : Cafe :=
  { ID := 42, Name := "remote name", Address := "remote address",
    Description := "remote description", Image := "remote image" }

/-- A second remote entity, with identifier 43. -/
def cafe43 : Cafe :=
  { ID := 43, Name := "second name", Address := "second address",
    Description := "second description", Image := "second image" }

/-- A consistent remote query stub: identifier "42" matches `cafe42`, every
other identifier matches nothing. -/
def oracleFortyTwo : String → Except String (List Cafe) :=
  fun q => if q = "42" then .ok [cafe42] else .ok []

/-- A remote query stub that returns two entities for every identifier. -/
def oracleTwoCafes : String → Except String (List Cafe) :=
  fun _ => .ok [cafe42, cafe43]

/-- The stale entity echoed by an update stub, modelling an update response
that does not carry the canonical remote values. -/
def staleCafe : Cafe :=
  { ID := 7, Name := "stale name", Address := "stale address",
    Description := "stale description", Image := "stale image" }

/-- The canonical entity returned by a follow-up read stub. -/
def freshCafe : Cafe :=
  { ID := 7, Name := "fresh name", Address := "fresh address",
    Description := "fresh description", Image := "fresh image" }

/-- A planned update of entity 7, in the string-identifier draft's model. -/
def planSeven : ProviderA.CafeModel :=
  { ID := "7", Name := "planned name", Address := "planned address",
    Description := "planned description", Image := "planned image" }

/-- A planned update of entity 7, in the integer-identifier draft's model. -/
def planSevenB : ProviderB.CafeModel :=
  { ID := 7, Name := "planned name", Address := "planned address",
    Description := "planned description", Image := "planned image" }

/-- Claim C1: for every planned model, the string-identifier draft's Create
either succeeds with a persisted model whose identifier is non-empty and
whose name, address, description and image equal the fields echoed by the
remote create call, or, when the remote call errors, appends the remote
error diagnostic carrying the underlying error text and persists no
state. -/
theorem create_ok_or_remote_error (plan : ProviderA.CafeModel)
    (createCafe : List Cafe → Except String Cafe) :
    (∃ e, createCafe (ProviderA.createRequest plan) = .error e ∧
      ProviderA.Create plan createCafe =
        { diags := [{ title := "Error creating cafe",
                      detail := "Could not create cafe, unexpected error: " ++ e }],
          state := none }) ∨
    (∃ c, createCafe (ProviderA.createRequest plan) = .ok c ∧
      ProviderA.Create plan createCafe =
        { diags := [],
          state := some { ID := itoa c.ID, Name := c.Name, Address := c.Address,
                          Description := c.Description, Image := c.Image } } ∧
      itoa c.ID ≠ "") := by
  cases h : createCafe (ProviderA.createRequest plan) with
  | error e => exact Or.inl ⟨e, rfl, by simp [ProviderA.Create, h]⟩
  | ok c => exact Or.inr ⟨c, rfl, by simp [ProviderA.Create, h], itoa_ne_empty c.ID⟩

/-- Claim C2, code evaluation: on the sample plan, the string-identifier
draft's creation request carries exactly the plan's four user-supplied
attributes with the identifier left at its zero value, while the other
draft's creation request is the empty list, omitting every plan
attribute. -/
theorem create_request_drafts :
    ProviderA.createRequest samplePlanA =
      [{ ID := 0, Name := "Sample Cafe", Address := "123 Coffee St",
         Description := "A cozy place", Image := "http://example.com/image.jpg" }] ∧
    ProviderB.createRequest samplePlanB = [] :=
  ⟨rfl, rfl⟩

/-- Claim C3, code evaluation: with the remote query returning zero
entities for stored identifier 42, the string-identifier draft's Read
fails with the not-found diagnostic, whose title differs from this Read's
remote-error title, and persists nothing; the integer-identifier draft's
Read appends no diagnostic at all and persists an empty list state. -/
theorem read_zero_results_drafts :
    ProviderA.Read stateFortyTwo (fun _ => .ok []) =
      { diags := [{ title := "Cafe Not Found",
                    detail := "No cafe found with the given ID" }],
        state := none } ∧
    "Cafe Not Found" ≠ "Unable to Read HashiCups Cafe" ∧
    ProviderB.Read (.ok []) = { diags := [], state := some { Cafe := [] } } := by
  refine ⟨by decide, by decide, rfl⟩

/-- Claim C4, code evaluation: the integer-identifier draft's Update
persists the attributes of the follow-up read (the fresh entity) and
discards the update response, and fails with a remote-error diagnostic and
no persisted state when either remote call errors; the string-identifier
draft's Update takes no read callback at all and persists the possibly
stale update response directly. -/
theorem update_follow_up_read_drafts :
    ProviderB.Update planSevenB (fun _ _ => .ok staleCafe) (fun _ => .ok freshCafe) =
      { diags := [],
        state := some { ID := 7, Name := "fresh name", Address := "fresh address",
                        Description := "fresh description", Image := "fresh image" } } ∧
    ProviderB.Update planSevenB (fun _ _ => .error "update boom") (fun _ => .ok freshCafe) =
      { diags := [{ title := "Error Updating HashiCups Cafe",
                    detail := "Could not update cafe, unexpected error: update boom" }],
        state := none } ∧
    ProviderB.Update planSevenB (fun _ _ => .ok staleCafe) (fun _ => .error "read boom") =
      { diags := [{ title := "Error Reading HashiCups Cafe",
                    detail := "Could not read HashiCups ocaferder ID 7: read boom" }],
        state := none } ∧
    ProviderA.Update planSeven (fun _ _ => .ok staleCafe) =
      { diags := [],
        state := some { ID := "7", Name := "stale name", Address := "stale address",
                        Description := "stale description", Image := "stale image" } } := by
  refine ⟨by decide, by decide, by decide, by decide⟩

/-- Claim C5: Create on the sample plan, against a remote stub that assigns
identifier 42 and echoes every submitted field, persists exactly the model
with identifier "42" and the four sample attribute values, with no
diagnostics. -/
theorem create_sample_scenario :
    ProviderA.Create samplePlanA echoStub42 =
      { diags := [],
        state := some { ID := "42", Name := "Sample Cafe", Address := "123 Coffee St",
                        Description := "A cozy place",
                        Image := "http://example.com/image.jpg" } } := by
  decide

/-- Claim C6: when the stored identifier fails to parse, Read appends the
conversion-error diagnostic, whose title differs from the remote-error
title this Read uses, persists no state, and returns the same outcome for
every remote client, i.e. no remote call influences the result. -/
theorem read_conversion_error (s : ProviderA.CafeModel)
    (g g' : String → Except String (List Cafe)) (h : atoi s.ID = none) :
    ProviderA.Read s g = { diags := [ProviderA.convDiag s.ID], state := none } ∧
    (ProviderA.convDiag s.ID).title ≠ "Unable to Read HashiCups Cafe" ∧
    ProviderA.Read s g = ProviderA.Read s g' := by
  refine ⟨by simp [ProviderA.Read, h], ?_, by simp [ProviderA.Read, h]⟩
  show "Error Converting Cafe ID" ≠ "Unable to Read HashiCups Cafe"
  decide

/-- Witness for the conversion-error theorem, at the unparsable stored
identifier "abc" and two different remote stubs. -/
theorem read_conversion_error_witness :
    atoi stateAbc.ID = none ∧
    ProviderA.Read stateAbc (fun _ => .ok []) =
      { diags := [ProviderA.convDiag "abc"], state := none } ∧
    ProviderA.Read stateAbc (fun _ => .ok []) =
      ProviderA.Read stateAbc (fun _ => .error "x") := by
  refine ⟨by decide, ?_, ?_⟩
  · exact (read_conversion_error stateAbc (fun _ => .ok []) (fun _ => .error "x")
      (by decide)).1
  · exact (read_conversion_error stateAbc (fun _ => .ok []) (fun _ => .error "x")
      (by decide)).2.2

/-- Claim C7: on a successful remote query, Read persists the full
overwrite of the state: every one of the five attributes comes from the
first returned remote entity, whatever the prior state's attribute values
were. -/
theorem read_full_refresh (s : ProviderA.CafeModel)
    (g : String → Except String (List Cafe)) (n : Int) (c : Cafe)
    (rest : List Cafe) (h1 : atoi s.ID = some n)
    (h2 : g (itoa n) = .ok (c :: rest)) :
    ProviderA.Read s g =
      { diags := [],
        state := some { ID := itoa c.ID, Name := c.Name, Address := c.Address,
                        Description := c.Description, Image := c.Image } } := by
  simp [ProviderA.Read, h1, h2, ProviderA.fromCafe]

/-- Witness for the full-refresh theorem at stored identifier "42" and the
one-entity remote stub. -/
theorem read_full_refresh_witness :
    atoi stateFortyTwo.ID = some 42 ∧
    oracleFortyTwo (itoa 42) = .ok [cafe42] ∧
    ProviderA.Read stateFortyTwo oracleFortyTwo =
      { diags := [],
        state := some { ID := itoa cafe42.ID, Name := cafe42.Name,
                        Address := cafe42.Address, Description := cafe42.Description,
                        Image := cafe42.Image } } :=
  ⟨by decide, rfl,
    read_full_refresh stateFortyTwo oracleFortyTwo 42 cafe42 [] (by decide) rfl⟩

/-- Claim C8: Configure on nil provider data changes nothing and emits no
diagnostic; on a wrong-typed value it emits exactly one configuration
diagnostic naming the expected type and the actual type and leaves the
stored handle as it was; only on a correctly typed client handle does it
store the handle. -/
theorem configure_contract :
    (∀ cur, Configure cur .nil = (cur, [])) ∧
    (∀ cur t, Configure cur (.other t) = (cur, [configureDiag t]) ∧
      (configureDiag t).detail =
        "Expected *hashicups.Client, got: " ++ t ++
          ". Please report this issue to the provider developers.") ∧
    (∀ cur c, Configure cur (.client c) = (some c, [])) :=
  ⟨fun _ => rfl, fun _ _ => ⟨rfl, rfl⟩, fun _ _ => rfl⟩

/-- Claim C9: Read is idempotent: when the remote query is consistent
(every returned entity renders the queried identifier) and one Read
refreshes the state to s', a second Read against the same remote responses
refreshes to the same s'. -/
theorem read_idempotent (s s' : ProviderA.CafeModel)
    (g : String → Except String (List Cafe))
    (hmatch : ∀ q cs, g q = .ok cs → ∀ c ∈ cs, itoa c.ID = q)
    (h : ProviderA.Read s g = { diags := [], state := some s' }) :
    ProviderA.Read s' g = { diags := [], state := some s' } := by
  cases h1 : atoi s.ID with
  | none => simp [ProviderA.Read, h1] at h
  | some n =>
    cases h2 : g (itoa n) with
    | error e => simp [ProviderA.Read, h1, h2] at h
    | ok cafes =>
      cases cafes with
      | nil => simp [ProviderA.Read, h1, h2] at h
      | cons c rest =>
        simp only [ProviderA.Read, h1, h2] at h
        have hs' : ProviderA.fromCafe c = s' := by
          have hstate := congrArg OpResponse.state h
          simpa using hstate
        have hid : s'.ID = itoa n := by
          rw [← hs']
          show itoa c.ID = itoa n
          exact hmatch (itoa n) (c :: rest) h2 c (by simp)
        simp only [ProviderA.Read, hid, atoi_itoa, h2]
        rw [hs']

/-- Witness for the idempotence theorem: a first refresh from stored
identifier "42" against the consistent one-entity stub, then the theorem
applied to show the refreshed state reads back unchanged. -/
theorem read_idempotent_witness :
    ProviderA.Read (ProviderA.fromCafe cafe42) oracleFortyTwo =
      { diags := [], state := some (ProviderA.fromCafe cafe42) } := by
  refine read_idempotent stateFortyTwo (ProviderA.fromCafe cafe42) oracleFortyTwo
    ?_ (by decide)
  intro q cs hq c hc
  by_cases hq42 : q = "42"
  · subst hq42
    simp [oracleFortyTwo] at hq
    subst hq
    simp at hc
    subst hc
    decide
  · simp [oracleFortyTwo, hq42] at hq
    subst hq
    simp at hc

/-- Claim C10: when the remote query returns more than one entity, Read
persists the refresh built from the first entity alone, ignoring the
others, and appends no diagnostic. -/
theorem read_multiple_uses_first (s : ProviderA.CafeModel)
    (g : String → Except String (List Cafe)) (n : Int) (c c2 : Cafe)
    (rest : List Cafe) (h1 : atoi s.ID = some n)
    (h2 : g (itoa n) = .ok (c :: c2 :: rest)) :
    ProviderA.Read s g = { diags := [], state := some (ProviderA.fromCafe c) } := by
  simp [ProviderA.Read, h1, h2]

/-- Witness for the first-entity theorem at stored identifier "42" and a
two-entity remote stub. -/
theorem read_multiple_uses_first_witness :
    atoi stateFortyTwo.ID = some 42 ∧
    oracleTwoCafes (itoa 42) = .ok [cafe42, cafe43] ∧
    ProviderA.Read stateFortyTwo oracleTwoCafes =
      { diags := [], state := some (ProviderA.fromCafe cafe42) } :=
  ⟨by decide, rfl,
    read_multiple_uses_first stateFortyTwo oracleTwoCafes 42 cafe42 cafe43 []
      (by decide) rfl⟩

end CafeProvider
